import Mathlib

/-!
Verification of the issue-to-solution mapping and campaign-data aggregation
engine of the pagespeedinsights-api repository.

The definitions below are a shallow embedding of the TypeScript service
`src/services/azion-solutions.ts` (resolver, aggregator), of the CrUX metric
assessment in the CrUX service (`assessCrUXPerformance`), and of the pitch
formatter in the analyzer service (`formatMarketingPitch`).  JavaScript
numbers are modelled as exact rationals (`Rat`); JavaScript objects used as
ordered dictionaries are modelled as association lists in insertion order;
`null`/`undefined` values are modelled with `Option`.  Long presentation
strings (solution descriptions and so on) are carried over with light
abbreviation where noted; no verified property depends on their content.
-/

namespace Azion

/-- Priority tier of an audit mapping, the union type of the source. -/
inductive Priority where
  | high
  | medium
  | low
deriving DecidableEq, Repr

/-- One catalog entry of the static solution table `AZION_SOLUTIONS`.
The `features` list of the source is omitted: it is only interpolated into
HTML templates and never read by the core logic. -/
structure AzionSolution where
  id : String
  name : String
  description : String
  benefits : List String
  url : String
deriving DecidableEq, Repr

/-- One entry of the static table `PAGESPEED_TO_AZION_MAPPING`. -/
structure AuditMapping where
  solutions : List String
  priority : Priority
  description : String
deriving DecidableEq, Repr

/-- One console error attached to an `errors-in-console` issue. -/
structure ConsoleError where
  description : String
  source : Option String
  source_location : Option String
deriving DecidableEq, Repr

/-- One detected issue, the `IssueInfo` shape of the analysis result.
Fields that are only echoed into presentation output
(`original_pagespeed_data`) are omitted. -/
structure IssueInfo where
  id : String
  title : String
  description : String
  score : Rat
  display_value : String
  impact : Option String
  console_errors : Option (List ConsoleError)
  console_error_count : Option Nat
  category : Option String
deriving DecidableEq, Repr

/-- One category of the analysis result: a 0-100 score and its issues. -/
structure CategoryData where
  score : Rat
  issues : List IssueInfo
deriving DecidableEq, Repr

/-- The analysis result consumed by the aggregator: categories in object
insertion order, as produced by `Object.entries`. -/
abbrev AnalysisResult := List (String × CategoryData)

/-- Resolver output for one audit id (`AzionRecommendation` in the source). -/
structure AzionRecommendation where
  audit_id : String
  priority : Priority
  description : String
  solutions : List AzionSolution
  audit_data : Option IssueInfo
deriving DecidableEq, Repr

/-- The console-error block of the campaign summary. -/
structure ConsoleErrorsSummary where
  has_console_errors : Bool
  total_console_errors : Nat
  error_types : List String
deriving DecidableEq, Repr

/-- The `summary` block of the campaign data. -/
structure MarketingSummary where
  total_issues : Nat
  high_priority_issues : Nat
  medium_priority_issues : Nat
  low_priority_issues : Nat
  potential_solutions : List String
  estimated_impact : String
  console_errors : ConsoleErrorsSummary
deriving DecidableEq, Repr

/-- One resolved issue recorded under a category of the campaign data. -/
structure CategoryIssue where
  audit : IssueInfo
  azion_solution : AzionRecommendation
  severity : String
deriving DecidableEq, Repr

/-- One category block of the campaign data. -/
structure CategoryEntry where
  score : Rat
  issues : List CategoryIssue
  issue_count : Nat
deriving DecidableEq, Repr

/-- One ranked entry of the action plan (`ActionPlan` in the source).
The `pagespeed_insights_context` pass-through block and the optional
`console_error_details` copy are presentation echoes of fields already
modelled on `IssueInfo` and are omitted here. -/
structure ActionPlan where
  title : String
  description : String
  priority : Priority
  category : String
  potential_savings : String
  recommended_solutions : List String
  implementation_complexity : String
deriving DecidableEq, Repr

/-- The campaign data (`MarketingData` in the source). -/
structure MarketingData where
  summary : MarketingSummary
  categories : List (String × CategoryEntry)
  solutions_overview : List (String × AzionSolution)
  action_plan : List ActionPlan
deriving DecidableEq, Repr

/-- One entry of the `recommendations` list of the entry point. -/
structure RecommendationEntry where
  category : String
  issue : IssueInfo
  azion_solution : AzionRecommendation
deriving DecidableEq, Repr

/-- Output of the entry point `generateAzionRecommendations`. -/
structure AzionRecommendations where
  recommendations : List RecommendationEntry
  marketing_data : MarketingData
  solution_count : Nat
deriving DecidableEq, Repr

/-- Insertion into a JavaScript `Set` modelled as an insertion-ordered
duplicate-free list: a repeated element is dropped, a new one appended. -/
def insertUnique (l : List String) (x : String) : List String :=
  if x ∈ l then l else l ++ [x]

/-- `[...new Set(xs)]`: the distinct elements of `xs` in first-occurrence
order. -/
def jsSetOfList (xs : List String) : List String :=
  xs.foldl insertUnique []

/-- JavaScript `s || d` for a string `s`: the empty string is falsy. -/
def jsStringOr (s d : String) : String :=
  if s = "" then d else s

/-- JavaScript `s || d` for a possibly absent string field. -/
def jsOptStringOr (s : Option String) (d : String) : String :=
  match s with
  | some v => jsStringOr v d
  | none => d

/-- The static solution catalog `AZION_SOLUTIONS`, in source order.
Description texts are lightly abbreviated (possessives dropped); ids,
names, benefit lists and urls are carried over verbatim. -/
def AZION_SOLUTIONS : List (String × AzionSolution) := [
  ("applications",
   { id := "applications",
     name := "Applications",
     description := "Build and deploy applications that run directly on the Azion distributed network",
     benefits := [
       "Reduced latency through edge delivery",
       "Improved Core Web Vitals scores",
       "Enhanced user experience",
       "Reduced origin server load",
       "Automatic bandwidth savings through compression",
       "Faster page load times with compressed content"],
     url := "https://www.azion.com/en/products/applications/" }),
  ("functions",
   { id := "functions",
     name := "Functions",
     description := "Create event-driven, serverless applications at the edge of the network",
     benefits := [
       "Request/response manipulation",
       "Dynamic content generation",
       "Authentication and authorization",
       "A/B testing and feature flags",
       "Bot detection and mitigation",
       "Geolocation-based routing",
       "API composition and transformation"],
     url := "https://www.azion.com/en/products/functions/" }),
  ("cache",
   { id := "cache",
     name := "Cache",
     description := "Advanced caching system that reduces latency and improves performance",
     benefits := [
       "Reduces server response time (TTFB)",
       "Improves loading performance",
       "Reduces bandwidth costs",
       "Handles traffic spikes",
       "Caches compressed content for faster delivery",
       "Reduces origin bandwidth through compression"],
     url := "https://www.azion.com/en/products/cache/" }),
  ("tiered_cache",
   { id := "tiered_cache",
     name := "Tiered Cache",
     description := "Multi-layer caching architecture for enhanced performance and reduced origin load",
     benefits := [
       "Reduces origin requests",
       "Improves cache hit ratio",
       "Faster content delivery",
       "Better scalability"],
     url := "https://www.azion.com/en/products/tiered-cache/" }),
  ("image_processor",
   { id := "image_processor",
     name := "Image Processor",
     description := "Automatic image optimization and transformation service",
     benefits := [
       "Reduces image file sizes",
       "Serves next-gen formats",
       "Improves loading performance",
       "Saves bandwidth"],
     url := "https://www.azion.com/en/products/image-processor/" }),
  ("firewall",
   { id := "firewall",
     name := "Firewall",
     description := "Comprehensive security solution protecting applications from various threats",
     benefits := [
       "Blocks malicious requests",
       "Improves security posture",
       "Reduces server load",
       "Prevents attacks"],
     url := "https://www.azion.com/en/products/firewall/" }),
  ("load_balancer",
   { id := "load_balancer",
     name := "Load Balancer",
     description := "Intelligent traffic distribution across multiple origins",
     benefits := [
       "Improves availability",
       "Distributes traffic efficiently",
       "Reduces response times",
       "Handles failures gracefully"],
     url := "https://www.azion.com/en/products/load-balancer/" }),
  ("best_practices_review",
   { id := "best_practices_review",
     name := "Best Practices Review",
     description := "Thorough evaluation of infrastructure with expert recommendations to optimize performance, security, and efficiency",
     benefits := [
       "Improved application performance and security",
       "Cost optimization through expert analysis",
       "Source code optimization recommendations",
       "Unused resource identification and cleanup",
       "Industry best practices implementation",
       "Expert guidance for complex optimizations"],
     url := "https://www.azion.com/en/documentation/services/best-practices-review/" })]

/-- The static audit-to-solution table `PAGESPEED_TO_AZION_MAPPING`, in
source order.  Solution id lists and priorities are verbatim; the rationale
strings are lightly abbreviated (no verified property reads them). -/
def PAGESPEED_TO_AZION_MAPPING : List (String × AuditMapping) := [
  ("server-response-time",
   { solutions := ["cache", "tiered_cache", "load_balancer", "functions"],
     priority := .high,
     description := "Dramatically improve server response times with multi-layer caching, load balancing, and edge processing" }),
  ("render-blocking-resources",
   { solutions := ["functions", "applications", "cache"],
     priority := .high,
     description := "Use Edge Functions to inline critical CSS/JS, modify resource loading order, and implement advanced optimization techniques" }),
  ("unused-css-rules",
   { solutions := ["best_practices_review"],
     priority := .medium,
     description := "Expert analysis to identify and remove unused CSS rules from your source code" }),
  ("unused-javascript",
   { solutions := ["best_practices_review"],
     priority := .medium,
     description := "Expert analysis to identify and remove unused JavaScript code from your source code" }),
  ("modern-image-formats",
   { solutions := ["image_processor", "functions"],
     priority := .high,
     description := "Automatically convert images to WebP/AVIF formats with intelligent browser detection and quality optimization" }),
  ("uses-webp-images",
   { solutions := ["image_processor", "cache"],
     priority := .high,
     description := "Serve WebP images automatically based on browser support with intelligent caching strategies" }),
  ("uses-optimized-images",
   { solutions := ["image_processor", "cache", "functions"],
     priority := .high,
     description := "Comprehensive image optimization including compression, resizing, format conversion, and smart caching" }),
  ("uses-text-compression",
   { solutions := ["applications", "cache"],
     priority := .high,
     description := "Enable automatic GZIP/Brotli compression for all text-based content with intelligent algorithm selection" }),
  ("uses-long-cache-ttl",
   { solutions := ["cache", "tiered_cache", "applications"],
     priority := .high,
     description := "Configure optimal cache TTL values with intelligent cache policies and multi-layer caching architecture" }),
  ("is-on-https",
   { solutions := ["applications", "load_balancer"],
     priority := .high,
     description := "Enforce HTTPS connections with automatic certificate management, SSL/TLS termination, and security headers" }),
  ("no-vulnerable-libraries",
   { solutions := ["firewall", "functions", "applications"],
     priority := .high,
     description := "Block requests targeting vulnerable libraries, implement security scanning, and update dependencies automatically" }),
  ("csp-xss",
   { solutions := ["firewall", "functions", "applications"],
     priority := .high,
     description := "Implement Content Security Policy headers, XSS protection, and comprehensive security rule enforcement" }),
  ("largest-contentful-paint",
   { solutions := ["cache", "image_processor", "functions", "tiered_cache"],
     priority := .high,
     description := "Optimize LCP through intelligent caching, image optimization, and critical resource prioritization" }),
  ("cumulative-layout-shift",
   { solutions := ["best_practices_review"],
     priority := .high,
     description := "Expert guidance for preventing Cumulative Layout Shift through source code improvements" }),
  ("errors-in-console",
   { solutions := ["functions", "applications", "firewall"],
     priority := .high,
     description := "Fix JavaScript errors and console warnings through edge-side error handling and monitoring" }),
  ("image-alt",
   { solutions := ["best_practices_review"],
     priority := .high,
     description := "Expert guidance for adding proper alt attributes to images in your source code" })]

/-- The resolver loop over a mapping's solution ids: catalog records of the
ids found in the catalog, in mapping order, missing ids silently skipped. -/
def resolveSolutionIds (ids : List String) : List AzionSolution :=
  ids.foldl (fun acc sid =>
    match AZION_SOLUTIONS.lookup sid with
    | some s => acc ++ [s]
    | none => acc) []

/-- `getAzionSolutionsForAudit`: the Recommendation Resolver.  Returns
`none` when the audit id is not a key of the mapping table, otherwise the
resolved recommendation. -/
def getAzionSolutionsForAudit (auditId : String) (auditData : Option IssueInfo) :
    Option AzionRecommendation :=
  match PAGESPEED_TO_AZION_MAPPING.lookup auditId with
  | none => none
  | some mapping =>
    some { audit_id := auditId,
           priority := mapping.priority,
           description := mapping.description,
           solutions := resolveSolutionIds mapping.solutions,
           audit_data := auditData }

/-- `error.source || "console.error"`: the source of a console error, the
default standing in for an absent or empty source. -/
def consoleErrorSource (e : ConsoleError) : String :=
  jsOptStringOr e.source "console.error"

/-- `audit.impact || "medium"`: the severity recorded for a resolved issue. -/
def issueSeverity (i : IssueInfo) : String :=
  jsOptStringOr i.impact "medium"

/-- Mutable traversal state of `generateMarketingCampaignData`: the summary
counters, the console-error block, the insertion-ordered set of potential
solution ids, and the categories recorded so far. -/
structure AggState where
  total_issues : Nat
  high_priority_issues : Nat
  medium_priority_issues : Nat
  low_priority_issues : Nat
  console_errors : ConsoleErrorsSummary
  potential_solutions : List String
  categories : List (String × CategoryEntry)
deriving DecidableEq, Repr

/-- The zero-initialized traversal state. -/
def initAggState : AggState :=
  { total_issues := 0,
    high_priority_issues := 0,
    medium_priority_issues := 0,
    low_priority_issues := 0,
    console_errors := { has_console_errors := false, total_console_errors := 0, error_types := [] },
    potential_solutions := [],
    categories := [] }

/-- The body of the inner issue loop of `generateMarketingCampaignData`.
A falsy (empty) id or an unmapped id leaves the state untouched; a resolved
issue updates the console-error block (for `errors-in-console` with a
present `console_errors` field, last write winning), bumps `total_issues`
and exactly one priority counter, unions the resolved solution ids into the
potential-solution set, and appends to the category's working issue list. -/
def stepIssue (acc : AggState × List CategoryIssue) (audit : IssueInfo) :
    AggState × List CategoryIssue :=
  if audit.id = "" then acc
  else
    match getAzionSolutionsForAudit audit.id (some audit) with
    | none => acc
    | some azionSolution =>
      let st0 := acc.1
      let st1 :=
        if audit.id = "errors-in-console" ∧ audit.console_errors.isSome then
          { st0 with console_errors :=
              { has_console_errors := true,
                total_console_errors := audit.console_error_count.getD 0,
                error_types := jsSetOfList ((audit.console_errors.getD []).map consoleErrorSource) } }
        else st0
      let st2 :=
        match azionSolution.priority with
        | .high =>
          { st1 with
            total_issues := st1.total_issues + 1,
            high_priority_issues := st1.high_priority_issues + 1 }
        | .medium =>
          { st1 with
            total_issues := st1.total_issues + 1,
            medium_priority_issues := st1.medium_priority_issues + 1 }
        | .low =>
          { st1 with
            total_issues := st1.total_issues + 1,
            low_priority_issues := st1.low_priority_issues + 1 }
      let st3 := { st2 with potential_solutions :=
        azionSolution.solutions.foldl (fun l s => insertUnique l s.id) st2.potential_solutions }
      (st3, acc.2 ++ [{ audit := audit, azion_solution := azionSolution,
                        severity := issueSeverity audit }])

/-- The body of the category loop of `generateMarketingCampaignData`.  The
duck-typed guard of the source (an object carrying a `score` field) is
identically satisfied by the typed `CategoryData` input and is therefore not
reproduced.  A category is recorded only when it produced at least one
resolved issue. -/
def stepCategory (st : AggState) (cat : String × CategoryData) : AggState :=
  let res := cat.2.issues.foldl stepIssue (st, [])
  if res.2.length > 0 then
    { res.1 with categories := res.1.categories ++
        [(cat.1, { score := cat.2.score, issues := res.2, issue_count := res.2.length })] }
  else res.1

/-- The numeric weight `{high: 3, medium: 2, low: 1}` used by the action
plan comparator. -/
def priorityWeight : Priority → Nat
  | .high => 3
  | .medium => 2
  | .low => 1

/-- The action plan comparator: `a` strictly precedes `b` when its priority
weight is larger, or at equal weight when its raw audit score is larger
(the source comparator returns `(b.audit.score || 0) - (a.audit.score || 0)`
on equal priorities, so higher raw scores sort first). -/
def actionBefore (a b : CategoryIssue) : Bool :=
  let aP := priorityWeight a.azion_solution.priority
  let bP := priorityWeight b.azion_solution.priority
  if aP ≠ bP then decide (bP < aP) else decide (b.audit.score < a.audit.score)

/-- Stable insertion: `x` is placed before the first element it strictly
precedes, hence after every element it compares equal to. -/
def insertSorted (x : CategoryIssue) : List CategoryIssue → List CategoryIssue
  | [] => [x]
  | y :: ys => if actionBefore x y then x :: y :: ys else y :: insertSorted x ys

/-- The stable sort performed by `allIssues.sort(comparator)` (JavaScript
array sort is stable), realized as a left-to-right stable insertion sort. -/
def sortIssues (l : List CategoryIssue) : List CategoryIssue :=
  l.foldl (fun acc x => insertSorted x acc) []

/-- Materialization of one action plan entry from a resolved issue. -/
def mkActionItem (issue : CategoryIssue) : ActionPlan :=
  { title := jsStringOr issue.audit.title "Performance Issue",
    description := issue.azion_solution.description,
    priority := issue.azion_solution.priority,
    category := jsOptStringOr issue.audit.category "performance",
    potential_savings := issue.audit.display_value,
    recommended_solutions := issue.azion_solution.solutions.map (fun s => s.name),
    implementation_complexity :=
      if issue.azion_solution.solutions.length = 1 then "low" else "medium" }

/-- `generateMarketingCampaignData`: the Campaign Aggregator.  Walks the
categories in input order, then assembles the summary (with the literal
`estimated_impact := "high"`), the solutions overview, and the top-10
action plan sorted by the comparator above. -/
def generateMarketingCampaignData (analysis : AnalysisResult) : MarketingData :=
  let st := analysis.foldl stepCategory initAggState
  let allIssues := st.categories.foldl (fun acc c => acc ++ c.2.issues) []
  { summary :=
      { total_issues := st.total_issues,
        high_priority_issues := st.high_priority_issues,
        medium_priority_issues := st.medium_priority_issues,
        low_priority_issues := st.low_priority_issues,
        potential_solutions := st.potential_solutions,
        estimated_impact := "high",
        console_errors := st.console_errors },
    categories := st.categories,
    solutions_overview := st.potential_solutions.foldl (fun acc sid =>
      match AZION_SOLUTIONS.lookup sid with
      | some s => acc ++ [(sid, s)]
      | none => acc) [],
    action_plan := ((sortIssues allIssues).take 10).map mkActionItem }

/-- `createEmptyMarketingData`: the empty campaign data returned for a null
analysis, with the literal `estimated_impact := "low"`. -/
def createEmptyMarketingData : MarketingData :=
  { summary :=
      { total_issues := 0,
        high_priority_issues := 0,
        medium_priority_issues := 0,
        low_priority_issues := 0,
        potential_solutions := [],
        estimated_impact := "low",
        console_errors := { has_console_errors := false, total_console_errors := 0, error_types := [] } },
    categories := [],
    solutions_overview := [],
    action_plan := [] }

/-- `generateAzionRecommendations`: the aggregation entry point.  A null
analysis short-circuits to the empty marketing data; otherwise the
recommendation list and the distinct-solution count are accumulated and the
campaign data generated. -/
def generateAzionRecommendations (analysis : Option AnalysisResult) : AzionRecommendations :=
  match analysis with
  | none =>
    { recommendations := [], marketing_data := createEmptyMarketingData, solution_count := 0 }
  | some a =>
    let res := a.foldl (fun acc cat =>
      cat.2.issues.foldl (fun acc2 issue =>
        match getAzionSolutionsForAudit issue.id (some issue) with
        | none => acc2
        | some sol =>
          (acc2.1 ++ [{ category := cat.1, issue := issue, azion_solution := sol }],
           sol.solutions.foldl (fun l s => insertUnique l s.id) acc2.2)) acc)
      (([] : List RecommendationEntry), ([] : List String))
    { recommendations := res.1,
      marketing_data := generateMarketingCampaignData a,
      solution_count := res.2.length }

/-- Classification outcome of one CrUX metric. -/
inductive CruxStatus where
  | good
  | needs_improvement
  | poor
deriving DecidableEq, Repr

/-- Status and score assigned to one CrUX metric. -/
structure CruxMetricAssessment where
  status : CruxStatus
  score : Rat
deriving DecidableEq, Repr

/-- The fixed per-metric `{good, poor}` thresholds of
`assessCrUXPerformance`. -/
def cruxThresholds : List (String × (Rat × Rat)) := [
  ("largest_contentful_paint", (2500, 4000)),
  ("first_contentful_paint", (1800, 3000)),
  ("cumulative_layout_shift", (1/10, 1/4)),
  ("interaction_to_next_paint", (200, 500)),
  ("experimental_time_to_first_byte", (800, 1800))]

/-- The adjustment applied to the latest P75 value before classification:
`cumulative_layout_shift` values are multiplied by 100, all other metrics
are compared as they are. -/
def cruxAdjusted (metricName : String) (v : Rat) : Rat :=
  if metricName = "cumulative_layout_shift" then v * 100 else v

/-- The per-metric body of `assessCrUXPerformance`: a metric outside the
threshold table or with no data point is skipped (`none`); otherwise the
latest P75 value is taken — multiplied by 100 for `cumulative_layout_shift`
— and classified against the thresholds.  The surrounding loop (display
names, issue/strength lists, the overall arithmetic mean) is presentation
aggregation over these outcomes. -/
def assessCruxMetric (metricName : String) (p75 : List Rat) : Option CruxMetricAssessment :=
  match cruxThresholds.lookup metricName with
  | none => none
  | some t =>
    match p75.getLast? with
    | none => none
    | some latest0 =>
      let latestValue := cruxAdjusted metricName latest0
      if latestValue ≤ t.1 then some { status := .good, score := 100 }
      else if latestValue ≤ t.2 then
        some { status := .needs_improvement,
               score := 75 - ((latestValue - t.1) / (t.2 - t.1)) * 50 }
      else
        some { status := .poor,
               score := max 0 (25 - (latestValue - t.2) / t.2 * 25) }

/-- The `executive_summary` block of the marketing pitch. -/
structure ExecutiveSummary where
  website : String
  issues_found : Nat
  critical_issues : Nat
  potential_impact : String
  recommended_solutions : Nat
deriving DecidableEq, Repr

/-- One `solution_highlights` entry of the marketing pitch. -/
structure SolutionHighlight where
  name : String
  description : String
  key_benefits : List String
  url : String
deriving DecidableEq, Repr

/-- The marketing pitch returned by `formatMarketingPitch`. -/
structure MarketingPitch where
  executive_summary : ExecutiveSummary
  value_proposition : List (String × String)
  solution_highlights : List SolutionHighlight
  next_steps : List String
deriving DecidableEq, Repr

/-- `formatMarketingPitch`: the Pitch Formatter.  The potential impact is
High when more than 3 high-priority issues were counted, else Medium when
more than 5 issues in total, else Low; the value proposition and next steps
are static copy; the highlights map the solutions overview with the first
three benefits of each solution. -/
def formatMarketingPitch (campaignData : MarketingData) (url : String) : MarketingPitch :=
  let summary := campaignData.summary
  let impactScore :=
    if summary.high_priority_issues > 3 then "High"
    else if summary.total_issues > 5 then "Medium"
    else "Low"
  { executive_summary :=
      { website := url,
        issues_found := summary.total_issues,
        critical_issues := summary.high_priority_issues,
        potential_impact := impactScore,
        recommended_solutions := summary.potential_solutions.length },
    value_proposition := [
      ("performance_improvement", "Up to 40% faster loading times"),
      ("cost_reduction", "Reduce bandwidth costs by 30-60%"),
      ("security_enhancement", "Enterprise-grade security protection"),
      ("scalability", "Handle 10x traffic spikes without issues")],
    solution_highlights := campaignData.solutions_overview.map (fun p =>
      { name := p.2.name,
        description := p.2.description,
        key_benefits := p.2.benefits.take 3,
        url := p.2.url }),
    next_steps := [
      "Schedule a technical consultation",
      "Conduct a detailed performance audit",
      "Design a custom optimization strategy",
      "Implement Azion Edge Platform",
      "Monitor and optimize performance"] }

/-- Number of issues of one category whose id is a key of the
audit-to-solution table (the issues the resolver resolves). -/
def resolvedIssueCount (issues : List IssueInfo) : Nat :=
  (issues.filter (fun i => (PAGESPEED_TO_AZION_MAPPING.lookup i.id).isSome)).length

/-- Number of resolvable issues across all categories of an analysis. -/
def analysisResolvedCount (analysis : AnalysisResult) : Nat :=
  (analysis.map (fun c => resolvedIssueCount c.2.issues)).sum

/-- Total number of issues recorded across the category blocks of the
campaign data. -/
def catIssuesSum (cats : List (String × CategoryEntry)) : Nat :=
  (cats.map (fun c => c.2.issues.length)).sum

/-- A blank issue record, completed per example below. -/
def blankIssue : IssueInfo :=
  { id := "", title := "", description := "", score := 0, display_value := "",
    impact := none, console_errors := none, console_error_count := none, category := none }

/-- Example issue: a `csp-xss` audit (mapped priority high) with raw score
0.3 (written in lowest terms so that kernel evaluation needs no gcd). -/
def tieIssueA : IssueInfo :=
  { blankIssue with id := "csp-xss", title := "issue-a",
                    score := ⟨3, 10, by norm_num, by norm_num⟩ }

/-- Example issue: an `is-on-https` audit (mapped priority high) with raw
score 0.7. -/
def tieIssueB : IssueInfo :=
  { blankIssue with id := "is-on-https", title := "issue-b",
                    score := ⟨7, 10, by norm_num, by norm_num⟩ }

/-- Example analysis holding the two equal-priority issues above, the
lower-scored one first. -/
def tieAnalysis : AnalysisResult :=
  [("performance", { score := 65, issues := [tieIssueA, tieIssueB] })]

/-- Example console error carrying the source `console.error`. -/
def exConsoleError : ConsoleError :=
  { description := "boom", source := some "console.error", source_location := none }

/-- Example `errors-in-console` issue with one console error and no
`console_error_count` field. -/
def exConsoleIssue : IssueInfo :=
  { blankIssue with
    id := "errors-in-console", title := "console issue",
    score := ⟨1, 2, by norm_num, by norm_num⟩,
    console_errors := some [exConsoleError] }

/-- The rational 0.05, a realistic good CLS value. -/
def exClsValue : Rat := 1/20

/-- Example campaign data with exactly 3 high-priority issues and 5 issues
in total. -/
def exCampaign35 : MarketingData :=
  { summary :=
      { total_issues := 5,
        high_priority_issues := 3,
        medium_priority_issues := 2,
        low_priority_issues := 0,
        potential_solutions := [],
        estimated_impact := "high",
        console_errors := { has_console_errors := false, total_console_errors := 0, error_types := [] } },
    categories := [],
    solutions_overview := [],
    action_plan := [] }

/-- Claim C4: the aggregation never throws for well-typed input (the
embedding is a total function by construction), and both the null analysis
and the empty analysis yield a well-formed campaign data with zero total
issues, no potential solutions, an empty action plan and no categories. -/
theorem aggregate_empty_null_eval :
    ((generateAzionRecommendations none).marketing_data.summary.total_issues = 0 ∧
     (generateAzionRecommendations none).marketing_data.summary.potential_solutions = [] ∧
     (generateAzionRecommendations none).marketing_data.action_plan = [] ∧
     (generateAzionRecommendations none).marketing_data.categories = []) ∧
    ((generateAzionRecommendations (some [])).marketing_data.summary.total_issues = 0 ∧
     (generateAzionRecommendations (some [])).marketing_data.summary.potential_solutions = [] ∧
     (generateAzionRecommendations (some [])).marketing_data.action_plan = [] ∧
     (generateAzionRecommendations (some [])).marketing_data.categories = []) :=
  ⟨⟨rfl, rfl, rfl, rfl⟩, ⟨rfl, rfl, rfl, rfl⟩⟩

/-- Claim C9, counterexample: for the null analysis the entry point
returns the empty marketing data, whose estimated impact is the literal
"low", not "high" as claimed. -/
theorem estimated_impact_null_cex :
    (generateAzionRecommendations none).marketing_data.summary.estimated_impact = "low" ∧
    ¬ (generateAzionRecommendations none).marketing_data.summary.estimated_impact = "high" :=
  ⟨rfl, by decide⟩

/-- Claim C9, amended: the campaign data generated for every non-null
analysis carries the literal estimated impact "high", while the null
analysis short-circuits to the empty marketing data whose estimated impact
is the literal "low". -/
theorem estimated_impact_amended :
    (∀ analysis : AnalysisResult,
      (generateAzionRecommendations (some analysis)).marketing_data.summary.estimated_impact = "high") ∧
    (generateAzionRecommendations none).marketing_data.summary.estimated_impact = "low" :=
  ⟨fun _ => rfl, rfl⟩

/-- Claim C2: evaluation of the aggregator at the failing input.  Two
equal-priority (high) issues with raw scores 0.3 and 0.7, the lower-scored
one first in the input, come out of the action plan with the HIGHER-scored
issue first: the comparator orders equal-priority issues by raw score
descending, while the claim (and the inline comment of the source, lower
scores = higher priority) demands the lower-scored, worse issue first. -/
theorem action_plan_tiebreak_eval :
    ((generateMarketingCampaignData tieAnalysis).action_plan.map (fun a => a.title)) =
      ["issue-b", "issue-a"] ∧
    tieIssueA.score < tieIssueB.score := by
  constructor <;> decide

/-- Claim C6, counterexample: a `cumulative_layout_shift` P75 value of
0.05, below the good threshold 0.1, is claimed to classify as good with
score 100; the code multiplies the CLS value by 100 before comparing, so it
classifies as poor with score 0. -/
theorem crux_cls_scaling_cex :
    exClsValue ≤ 1/10 ∧
    assessCruxMetric "cumulative_layout_shift" [exClsValue] =
      some { status := CruxStatus.poor, score := 0 } ∧
    ¬ assessCruxMetric "cumulative_layout_shift" [exClsValue] =
      some { status := CruxStatus.good, score := 100 } := by
  have h : assessCruxMetric "cumulative_layout_shift" [exClsValue] =
      some { status := CruxStatus.poor, score := 0 } := by
    simp [assessCruxMetric, cruxAdjusted, cruxThresholds, List.lookup, exClsValue]
    norm_num
  refine ⟨by norm_num [exClsValue], h, by rw [h]; simp⟩

/-- Claim C8: the potential impact of the pitch is High when more than 3
high-priority issues were counted, otherwise Medium when more than 5 total
issues, otherwise Low. -/
theorem pitch_impact_thresholds :
    ∀ (c : MarketingData) (url : String),
      (3 < c.summary.high_priority_issues →
        (formatMarketingPitch c url).executive_summary.potential_impact = "High") ∧
      (¬ 3 < c.summary.high_priority_issues → 5 < c.summary.total_issues →
        (formatMarketingPitch c url).executive_summary.potential_impact = "Medium") ∧
      (¬ 3 < c.summary.high_priority_issues → ¬ 5 < c.summary.total_issues →
        (formatMarketingPitch c url).executive_summary.potential_impact = "Low") := by
  intro c url
  refine ⟨fun h => ?_, fun h1 h2 => ?_, fun h1 h2 => ?_⟩
  · simp only [formatMarketingPitch]
    rw [if_pos h]
  · simp only [formatMarketingPitch]
    rw [if_neg h1, if_pos h2]
  · simp only [formatMarketingPitch]
    rw [if_neg h1, if_neg h2]

/-- Claim C8, witness: a campaign with exactly 3 high-priority issues and
5 total issues is assessed as Low impact. -/
theorem pitch_impact_thresholds_witness :
    (formatMarketingPitch exCampaign35 "https://example.com").executive_summary.potential_impact = "Low" :=
  (pitch_impact_thresholds exCampaign35 "https://example.com").2.2 (by decide) (by decide)

/-- A successful association-list lookup witnesses membership of the
key-value pair. -/
theorem lookup_mem {β : Type} (a : String) (b : β) :
    ∀ l : List (String × β), l.lookup a = some b → (a, b) ∈ l := by
  intro l
  induction l with
  | nil => intro h; simp [List.lookup] at h
  | cons p rest ih =>
    intro h
    obtain ⟨k, v⟩ := p
    rw [List.lookup] at h
    cases hab : a == k with
    | false =>
      rw [hab] at h
      exact List.mem_cons_of_mem _ (ih h)
    | true =>
      rw [hab] at h
      obtain rfl : v = b := Option.some.inj h
      obtain rfl : a = k := eq_of_beq hab
      exact List.mem_cons_self _ _

/-- The accumulator-passing resolver loop is a `filterMap` over the catalog
lookups. -/
theorem foldl_resolve_append :
    ∀ (ids : List String) (acc : List AzionSolution),
      ids.foldl (fun acc sid =>
        match AZION_SOLUTIONS.lookup sid with
        | some s => acc ++ [s]
        | none => acc) acc
        = acc ++ ids.filterMap (fun sid => AZION_SOLUTIONS.lookup sid) := by
  intro ids
  induction ids with
  | nil => intro acc; simp
  | cons sid rest ih =>
    intro acc
    rw [List.foldl_cons, List.filterMap_cons]
    cases hl : AZION_SOLUTIONS.lookup sid with
    | none => simp only [hl]; exact ih acc
    | some s => simp only [hl]; rw [ih (acc ++ [s])]; simp

/-- The resolver's solution list is the catalog records of the mapping's
solution ids, in mapping order, missing ids skipped. -/
theorem resolveSolutionIds_eq_filterMap (ids : List String) :
    resolveSolutionIds ids = ids.filterMap (fun sid => AZION_SOLUTIONS.lookup sid) := by
  simpa using foldl_resolve_append ids []

/-- Claim C3: the resolver returns null exactly for audit ids that are not
keys of the audit-to-solution table, and for every key it returns a
recommendation with at least one solution. -/
theorem resolver_membership :
    ∀ auditId : String,
      (PAGESPEED_TO_AZION_MAPPING.lookup auditId = none →
        getAzionSolutionsForAudit auditId none = none) ∧
      (getAzionSolutionsForAudit auditId none = none →
        PAGESPEED_TO_AZION_MAPPING.lookup auditId = none) ∧
      (∀ m, PAGESPEED_TO_AZION_MAPPING.lookup auditId = some m →
        ∃ r, getAzionSolutionsForAudit auditId none = some r ∧ 1 ≤ r.solutions.length) := by
  intro auditId
  refine ⟨fun h => ?_, fun h => ?_, fun m hm => ?_⟩
  · unfold getAzionSolutionsForAudit
    rw [h]
  · cases hl : PAGESPEED_TO_AZION_MAPPING.lookup auditId with
    | none => rfl
    | some m =>
      unfold getAzionSolutionsForAudit at h
      rw [hl] at h
      exact Option.noConfusion h
  · have hmem := lookup_mem auditId m _ hm
    have hall : ∀ p ∈ PAGESPEED_TO_AZION_MAPPING,
        1 ≤ (resolveSolutionIds p.2.solutions).length := by decide
    refine ⟨{ audit_id := auditId, priority := m.priority, description := m.description,
              solutions := resolveSolutionIds m.solutions, audit_data := none }, ?_, ?_⟩
    · unfold getAzionSolutionsForAudit
      rw [hm]
    · simpa using hall (auditId, m) hmem

/-- Claim C3, witness: `server-response-time` is a key of the table and
resolves to a recommendation with at least one solution. -/
theorem resolver_membership_witness :
    ∃ r, getAzionSolutionsForAudit "server-response-time" none = some r ∧
      1 ≤ r.solutions.length :=
  (resolver_membership "server-response-time").2.2 _ (Option.some_get (by decide)).symm

/-- Claim C7: for every audit id that is a key of the table, the resolved
solutions are exactly the catalog records of the mapping's solution ids
that exist in the catalog, in mapping order, ids missing from the catalog
silently omitted. -/
theorem resolver_solutions_order :
    ∀ (auditId : String) (d : Option IssueInfo) (m : AuditMapping),
      PAGESPEED_TO_AZION_MAPPING.lookup auditId = some m →
      ∃ r, getAzionSolutionsForAudit auditId d = some r ∧
        r.solutions = m.solutions.filterMap (fun sid => AZION_SOLUTIONS.lookup sid) := by
  intro auditId d m hm
  refine ⟨{ audit_id := auditId, priority := m.priority, description := m.description,
            solutions := resolveSolutionIds m.solutions, audit_data := d }, ?_, ?_⟩
  · unfold getAzionSolutionsForAudit
    rw [hm]
  · exact resolveSolutionIds_eq_filterMap m.solutions

/-- Claim C7, witness: the solutions resolved for `server-response-time`
are the catalog records of its mapping's solution ids, in mapping order. -/
theorem resolver_solutions_order_witness :
    ∃ r, getAzionSolutionsForAudit "server-response-time" none = some r ∧
      r.solutions =
        ((PAGESPEED_TO_AZION_MAPPING.lookup "server-response-time").get
          (by decide)).solutions.filterMap (fun sid => AZION_SOLUTIONS.lookup sid) :=
  resolver_solutions_order "server-response-time" none _ (Option.some_get (by decide)).symm

/-- The good threshold of every row of the threshold table lies strictly
below its poor threshold. -/
theorem cruxThresholds_good_lt_poor :
    ∀ (name : String) (t : Rat × Rat),
      cruxThresholds.lookup name = some t → t.1 < t.2 := by
  intro name t ht
  have hmem := lookup_mem name t _ ht
  fin_cases hmem <;> norm_num

/-- Claim C6, amended: for each supported metric, classification applies to
the adjusted latest P75 value w (the raw value, except multiplied by 100
for `cumulative_layout_shift`): good with score 100 when w is at most the
good threshold, needs-improvement with the interpolated score when w lies
in the half-open band up to and including the poor threshold, and poor with
the floored score when w exceeds the poor threshold. -/
theorem crux_threshold_amended :
    ∀ (name : String) (t : Rat × Rat) (l : List Rat) (v : Rat),
      cruxThresholds.lookup name = some t →
      l.getLast? = some v →
      ((cruxAdjusted name v ≤ t.1 →
          assessCruxMetric name l = some { status := .good, score := 100 }) ∧
       (¬ cruxAdjusted name v ≤ t.1 → cruxAdjusted name v ≤ t.2 →
          assessCruxMetric name l =
            some { status := .needs_improvement,
                   score := 75 - ((cruxAdjusted name v - t.1) / (t.2 - t.1)) * 50 }) ∧
       (¬ cruxAdjusted name v ≤ t.2 →
          assessCruxMetric name l =
            some { status := .poor,
                   score := max 0 (25 - (cruxAdjusted name v - t.2) / t.2 * 25) })) := by
  intro name t l v ht hl
  unfold assessCruxMetric
  rw [ht, hl]
  dsimp only
  refine ⟨fun h1 => ?_, fun h1 h2 => ?_, fun h2 => ?_⟩
  · rw [if_pos h1]
  · rw [if_neg h1, if_pos h2]
  · have h1 : ¬ cruxAdjusted name v ≤ t.1 := fun hw =>
      h2 (hw.trans (le_of_lt (cruxThresholds_good_lt_poor name t ht)))
    rw [if_neg h1, if_neg h2]

/-- Claim C6, witness: an LCP value of exactly 2500, the good threshold,
classifies as good with score 100. -/
theorem crux_threshold_amended_witness :
    assessCruxMetric "largest_contentful_paint" [(2500 : Rat)] =
      some { status := .good, score := 100 } :=
  (crux_threshold_amended "largest_contentful_paint" (2500, 4000) [(2500 : Rat)] 2500
    (by decide) (by decide)).1 (by decide)

/-- Claim C10: an `errors-in-console` issue carrying a non-empty console
error list makes the aggregator record `has_console_errors := true` and the
distinct source values as error types, while the total console error count
is copied from the issue's separate `console_error_count` field (defaulting
to 0 when absent) — it is never derived from the length of the list. -/
theorem console_error_provenance :
    ∀ (catName : String) (catScore : Rat) (i : IssueInfo) (l : List ConsoleError),
      i.id = "errors-in-console" →
      i.console_errors = some l →
      ¬ l = [] →
      (generateMarketingCampaignData
          [(catName, { score := catScore, issues := [i] })]).summary.console_errors =
        { has_console_errors := true,
          total_console_errors := i.console_error_count.getD 0,
          error_types := jsSetOfList (l.map consoleErrorSource) } := by
  intro catName catScore i l hid hce hne
  obtain ⟨iid, ititle, idesc, iscore, idv, iimp, ice, icec, icat⟩ := i
  dsimp only at hid hce ⊢
  subst hid
  subst hce
  rfl

/-- Claim C10, witness: one console error with source `console.error` and
no `console_error_count` field yields a summary with a true console-error
flag, a non-empty error-type list, and a total count of 0. -/
theorem console_error_provenance_witness :
    (generateMarketingCampaignData
        [("best_practices", { score := 80, issues := [exConsoleIssue] })]).summary.console_errors =
      { has_console_errors := true, total_console_errors := 0,
        error_types := ["console.error"] } :=
  (console_error_provenance "best_practices" 80 exConsoleIssue [exConsoleError]
    rfl rfl (by decide)).trans (by decide)

/-- A resolver miss leaves the aggregation step state untouched. -/
theorem stepIssue_unresolved (acc : AggState × List CategoryIssue) (i : IssueInfo)
    (h : PAGESPEED_TO_AZION_MAPPING.lookup i.id = none) :
    stepIssue acc i = acc := by
  unfold stepIssue getAzionSolutionsForAudit
  rw [h]
  simp

/-- A resolver hit bumps the total count, exactly one priority bucket, and
the category's working issue list, and never touches the recorded
categories. -/
theorem stepIssue_resolved (acc : AggState × List CategoryIssue) (i : IssueInfo)
    (m : AuditMapping) (h : PAGESPEED_TO_AZION_MAPPING.lookup i.id = some m) :
    (stepIssue acc i).1.total_issues = acc.1.total_issues + 1 ∧
    (stepIssue acc i).1.high_priority_issues + (stepIssue acc i).1.medium_priority_issues
        + (stepIssue acc i).1.low_priority_issues
      = acc.1.high_priority_issues + acc.1.medium_priority_issues
        + acc.1.low_priority_issues + 1 ∧
    (stepIssue acc i).2.length = acc.2.length + 1 ∧
    (stepIssue acc i).1.categories = acc.1.categories := by
  have hne : ¬ i.id = "" := by
    intro he
    rw [he] at h
    rw [show PAGESPEED_TO_AZION_MAPPING.lookup "" = none from rfl] at h
    exact Option.noConfusion h
  unfold stepIssue getAzionSolutionsForAudit
  rw [if_neg hne, h]
  dsimp only
  by_cases hc : i.id = "errors-in-console" ∧ i.console_errors.isSome = true
  · simp only [if_pos hc]
    cases m.priority <;> (simp; try omega)
  · simp only [if_neg hc]
    cases m.priority <;> (simp; try omega)

/-- Effect of the issue loop on the step state: counters and the working
list grow by the number of resolvable issues, the recorded categories stay
fixed. -/
theorem foldl_stepIssue_spec :
    ∀ (issues : List IssueInfo) (acc : AggState × List CategoryIssue),
      ((issues.foldl stepIssue acc).1.total_issues
          = acc.1.total_issues + resolvedIssueCount issues) ∧
      ((issues.foldl stepIssue acc).1.high_priority_issues
          + (issues.foldl stepIssue acc).1.medium_priority_issues
          + (issues.foldl stepIssue acc).1.low_priority_issues
        = acc.1.high_priority_issues + acc.1.medium_priority_issues
          + acc.1.low_priority_issues + resolvedIssueCount issues) ∧
      ((issues.foldl stepIssue acc).2.length
          = acc.2.length + resolvedIssueCount issues) ∧
      ((issues.foldl stepIssue acc).1.categories = acc.1.categories) := by
  intro issues
  induction issues with
  | nil => intro acc; simp [resolvedIssueCount]
  | cons i rest ih =>
    intro acc
    rw [List.foldl_cons]
    rcases hl : PAGESPEED_TO_AZION_MAPPING.lookup i.id with _ | m
    · rw [stepIssue_unresolved acc i hl]
      have hc : resolvedIssueCount (i :: rest) = resolvedIssueCount rest := by
        simp [resolvedIssueCount, List.filter_cons, hl]
      rw [hc]
      exact ih acc
    · obtain ⟨h1, h2, h3, h4⟩ := stepIssue_resolved acc i m hl
      obtain ⟨j1, j2, j3, j4⟩ := ih (stepIssue acc i)
      have hc : resolvedIssueCount (i :: rest) = resolvedIssueCount rest + 1 := by
        simp [resolvedIssueCount, List.filter_cons, hl]
      refine ⟨by rw [hc]; omega, by rw [hc]; omega, by rw [hc]; omega, by rw [j4, h4]⟩

/-- Effect of one category step: counters grow by the category's resolvable
issues, and the recorded per-category issue totals grow by the same amount
(a category is appended exactly when it contributed at least one issue). -/
theorem stepCategory_spec (st : AggState) (cat : String × CategoryData) :
    (stepCategory st cat).total_issues
        = st.total_issues + resolvedIssueCount cat.2.issues ∧
    (stepCategory st cat).high_priority_issues + (stepCategory st cat).medium_priority_issues
        + (stepCategory st cat).low_priority_issues
      = st.high_priority_issues + st.medium_priority_issues + st.low_priority_issues
        + resolvedIssueCount cat.2.issues ∧
    catIssuesSum (stepCategory st cat).categories
      = catIssuesSum st.categories + resolvedIssueCount cat.2.issues := by
  obtain ⟨h1, h2, h3, h4⟩ := foldl_stepIssue_spec cat.2.issues (st, [])
  dsimp only at h1 h2 h3 h4
  simp only [List.length_nil] at h3
  unfold stepCategory
  dsimp only
  split
  · refine ⟨by simpa using h1, by simpa using h2, ?_⟩
    rw [h4]
    simp [catIssuesSum, List.map_append, List.sum_append]
    omega
  · next hlen =>
    have h0 : (cat.2.issues.foldl stepIssue (st, [])).2.length = 0 := by omega
    rw [h0] at h3
    refine ⟨by omega, by omega, ?_⟩
    rw [h4]
    omega

/-- Effect of the category loop: totals grow by the resolvable-issue count
of the whole analysis, in counters and in the recorded categories alike. -/
theorem foldl_stepCategory_spec :
    ∀ (cats : List (String × CategoryData)) (st : AggState),
      ((cats.foldl stepCategory st).total_issues
        = st.total_issues + analysisResolvedCount cats) ∧
      ((cats.foldl stepCategory st).high_priority_issues
          + (cats.foldl stepCategory st).medium_priority_issues
          + (cats.foldl stepCategory st).low_priority_issues
        = st.high_priority_issues + st.medium_priority_issues + st.low_priority_issues
          + analysisResolvedCount cats) ∧
      (catIssuesSum (cats.foldl stepCategory st).categories
        = catIssuesSum st.categories + analysisResolvedCount cats) := by
  intro cats
  induction cats with
  | nil => intro st; simp [analysisResolvedCount]
  | cons c rest ih =>
    intro st
    rw [List.foldl_cons]
    obtain ⟨h1, h2, h3⟩ := stepCategory_spec st c
    obtain ⟨j1, j2, j3⟩ := ih (stepCategory st c)
    have hc : analysisResolvedCount (c :: rest)
        = resolvedIssueCount c.2.issues + analysisResolvedCount rest := by
      simp [analysisResolvedCount]
    refine ⟨by rw [hc]; omega, by rw [hc]; omega, by rw [hc]; omega⟩

/-- Flattening the recorded categories yields as many issues as the
per-category totals. -/
theorem foldl_append_issues_length :
    ∀ (cats : List (String × CategoryEntry)) (acc : List CategoryIssue),
      (cats.foldl (fun acc c => acc ++ c.2.issues) acc).length
        = acc.length + catIssuesSum cats := by
  intro cats
  induction cats with
  | nil => intro acc; simp [catIssuesSum]
  | cons c rest ih =>
    intro acc
    rw [List.foldl_cons, ih]
    simp [catIssuesSum, List.length_append]
    omega

/-- Stable insertion adds exactly one element. -/
theorem length_insertSorted (x : CategoryIssue) :
    ∀ l : List CategoryIssue, (insertSorted x l).length = l.length + 1 := by
  intro l
  induction l with
  | nil => rfl
  | cons y ys ih =>
    unfold insertSorted
    split
    · simp
    · simp [ih]

/-- The insertion-sort loop preserves the total number of elements. -/
theorem length_sortIssues_aux :
    ∀ (l acc : List CategoryIssue),
      (l.foldl (fun acc x => insertSorted x acc) acc).length = acc.length + l.length := by
  intro l
  induction l with
  | nil => intro acc; simp
  | cons x xs ih =>
    intro acc
    rw [List.foldl_cons, ih]
    simp [length_insertSorted]
    omega

/-- Sorting the flattened issues preserves their number. -/
theorem length_sortIssues (l : List CategoryIssue) :
    (sortIssues l).length = l.length := by
  simpa using length_sortIssues_aux l []

/-- Claim C1: the aggregator's total issue count equals the sum of the
three priority buckets, and equals the number of issues of the input whose
id is a key of the audit-to-solution table (unresolvable ids contribute to
no counter). -/
theorem campaign_count_conservation :
    ∀ analysis : AnalysisResult,
      (generateMarketingCampaignData analysis).summary.total_issues
        = (generateMarketingCampaignData analysis).summary.high_priority_issues
          + (generateMarketingCampaignData analysis).summary.medium_priority_issues
          + (generateMarketingCampaignData analysis).summary.low_priority_issues ∧
      (generateMarketingCampaignData analysis).summary.total_issues
        = analysisResolvedCount analysis := by
  intro analysis
  obtain ⟨h1, h2, h3⟩ := foldl_stepCategory_spec analysis initAggState
  rw [show initAggState.total_issues = 0 from rfl] at h1
  rw [show initAggState.high_priority_issues = 0 from rfl,
      show initAggState.medium_priority_issues = 0 from rfl,
      show initAggState.low_priority_issues = 0 from rfl] at h2
  unfold generateMarketingCampaignData
  dsimp only
  omega

/-- Claim C5: the action plan holds exactly the 10 best-ranked resolved
issues, or all of them when fewer were resolved; in particular it never
exceeds 10 entries. -/
theorem action_plan_length_bound :
    ∀ analysis : AnalysisResult,
      (generateMarketingCampaignData analysis).action_plan.length
        = min 10 (analysisResolvedCount analysis) ∧
      (generateMarketingCampaignData analysis).action_plan.length ≤ 10 := by
  intro analysis
  obtain ⟨h1, h2, h3⟩ := foldl_stepCategory_spec analysis initAggState
  have hsum : catIssuesSum ((analysis.foldl stepCategory initAggState).categories)
      = analysisResolvedCount analysis := by
    simpa [initAggState, catIssuesSum] using h3
  unfold generateMarketingCampaignData
  dsimp only
  rw [List.length_map, List.length_take, length_sortIssues, foldl_append_issues_length, hsum]
  simp

end Azion
